import Mathlib

/-!
# Shallow embedding of FESTIM's derived-quantity and export layer

This file embeds, in Lean 4, the glue layer of the FESTIM repository:

* `src/festim/exports/surface_quantity.py` — the `SurfaceQuantity` class:
  validated property setters (`filename`, `surface_subdomain`, `field`),
  the `write_to_file` flag and the CSV `write(t)` operation;
* `src/festim/exports/derived_quantities/average_volume.py` — the
  `AverageVolume` class and its cylindrical and spherical variants:
  validated angular-range setters and the weighted-average `compute()`
  methods;
* `src/FESTIM/exports/derived_quantities_export.py` — `TotalVolume` and
  `TotalSurface`.

Modelling conventions:

* Python runtime values that flow through `isinstance` checks are an
  inductive type `PyVal`; Python's `bool`-is-a-subclass-of-`int` rule is
  reflected in `isinstance_int`.
* Raising `TypeError` / `ValueError` is modelled with `Except PyError`.
* Python floats are idealised as exact numbers: the angular-range values
  compared against `np.pi` are rationals (with `np_pi` the exact rational
  value of the IEEE-754 double `numpy.pi`), and the field/measure values
  coming from the external PDE engine are reals.
* The external engine's `fenics.assemble(g * dx(volume))` is modelled as a
  quadrature sum: the subdomain tagged by the volume id is a finite set of
  cells `Ω`, each cell has a measure `μ c`, and assembling an integrand `g`
  yields `∑ c in Ω, g c * μ c`.
* The file system touched by `write` is a map from file names to lists of
  rows, together with an event trace recording the open/write/close calls
  performed by the `with open(...)` block.
-/

/-- A Python runtime value, covering the types that reach the validated
setters of `SurfaceQuantity`: `None`, `str`, `int`, `bool`, instances of
`festim.SurfaceSubdomain1D`, instances of `festim.Species`, and `float`. -/
inductive PyVal where
  | none
  | str (s : String)
  | int (n : ℤ)
  | bool (b : Bool)
  | surfaceSubdomain1D (id : ℕ)
  | species (id : ℕ)
  | float (q : ℚ)
deriving DecidableEq, Repr

/-- A raised Python exception, as in `raise TypeError(msg)` /
`raise ValueError(msg)`. -/
inductive PyError where
  | typeError (msg : String)
  | valueError (msg : String)
deriving DecidableEq, Repr

/-- Python's `isinstance(value, str)`. -/
def isinstance_str : PyVal → Bool
  | .str _ => true
  | _ => false

/-- Python's `isinstance(value, int)`.  In Python `bool` is a subclass of
`int`, so `isinstance(True, int)` is `True`; the model reflects that. -/
def isinstance_int : PyVal → Bool
  | .int _ => true
  | .bool _ => true
  | _ => false

/-- Python's `isinstance(value, bool)`. -/
def isinstance_bool : PyVal → Bool
  | .bool _ => true
  | _ => false

/-- Python's `isinstance(value, F.SurfaceSubdomain1D)`. -/
def isinstance_SurfaceSubdomain1D : PyVal → Bool
  | .surfaceSubdomain1D _ => true
  | _ => false

/-- Python's `isinstance(value, F.Species)`. -/
def isinstance_Species : PyVal → Bool
  | .species _ => true
  | _ => false

/-- Python's `value.endswith(suffix)` for the values that reach the
`filename` setter; only strings have the method, and the setter only calls
it after the `isinstance(value, str)` check. -/
def py_endswith (v : PyVal) (suffix : String) : Bool :=
  match v with
  | .str s => s.endsWith suffix
  | _ => false

namespace SurfaceQuantity

/-- `SurfaceQuantity.filename` setter
(`src/festim/exports/surface_quantity.py`, lines 29–37):

```python
if value is None:
    self._filename = None
elif not isinstance(value, str):
    raise TypeError("filename must be of type str")
elif not value.endswith(".csv"):
    raise ValueError("filename must end with .csv")
self._filename = value
```

The final assignment is unconditional; on the `None` branch it rewrites
`_filename` with the same `None`, so the net effect of every non-raising
path is to store `value` unchanged. -/
def filename_setter (value : PyVal) : Except PyError PyVal :=
  if value = PyVal.none then
    Except.ok value
  else if ¬ isinstance_str value then
    Except.error (PyError.typeError "filename must be of type str")
  else if ¬ py_endswith value ".csv" then
    Except.error (PyError.valueError "filename must end with .csv")
  else
    Except.ok value

/-- `SurfaceQuantity.surface_subdomain` setter
(`src/festim/exports/surface_quantity.py`, lines 43–49):

```python
if not isinstance(value, (int, F.SurfaceSubdomain1D)) or isinstance(
    value, bool
):
    raise TypeError("surface should be an int or F.SurfaceSubdomain1D")
self._surface_subdomain = value
```
-/
def surface_subdomain_setter (value : PyVal) : Except PyError PyVal :=
  if ¬ (isinstance_int value ∨ isinstance_SurfaceSubdomain1D value)
      ∨ isinstance_bool value then
    Except.error (PyError.typeError "surface should be an int or F.SurfaceSubdomain1D")
  else
    Except.ok value

/-- `SurfaceQuantity.field` setter
(`src/festim/exports/surface_quantity.py`, lines 55–61): raises `TypeError`
unless the value is a `festim.Species` or a `str`. -/
def field_setter (value : PyVal) : Except PyError PyVal :=
  if ¬ (isinstance_Species value ∨ isinstance_str value) then
    Except.error (PyError.typeError "field must be of type festim.Species")
  else
    Except.ok value

/-- `SurfaceQuantity.write_to_file` property
(`src/festim/exports/surface_quantity.py`, lines 63–68): `False` when
`filename` is `None`, `True` otherwise. -/
def write_to_file (filename : Option String) : Bool :=
  match filename with
  | Option.none => false
  | Option.some _ => true

/-- The file system visible to `write`: the rows of each file, by name.
A row of the CSV file is the `(t, value)` pair passed to
`csv.writer(file).writerow([t, self.value])`. -/
def FS : Type := String → List (ℝ × ℝ)

/-- One event of the `with open(...)` block executed by `write`. -/
inductive FileEvent where
  | openAppend (name : String)
  | writeRow (t value : ℝ)
  | close (name : String)

/-- `SurfaceQuantity.write`
(`src/festim/exports/surface_quantity.py`, lines 70–73):

```python
def write(self, t):
    with open(self.filename, mode="a", newline="") as file:
        writer = csv.writer(file)
        writer.writerow([t, self.value])
```

`open(self.filename, mode="a")` with `self.filename = None` raises
`TypeError` before any file is touched.  Otherwise the `with` block opens
the named file in append mode, `csv.writerow` appends the single
two-column row `(t, self.value)` at its end, and the block closes the
file; no other file changes.  The result pairs the updated file system
with the event trace of the call. -/
def write (filename : Option String) (value : ℝ) (t : ℝ) (fs : FS) :
    Except PyError (FS × List FileEvent) :=
  match filename with
  | Option.none =>
      Except.error
        (PyError.typeError "expected str, bytes or os.PathLike object, not NoneType")
  | Option.some name =>
      Except.ok
        (fun n => if n = name then fs n ++ [(t, value)] else fs n,
         [FileEvent.openAppend name, FileEvent.writeRow t value, FileEvent.close name])

end SurfaceQuantity

/-- The exact rational value of the IEEE-754 double `numpy.pi`
(`np.pi = 884279719003555 / 2 ** 48`), the constant the angular-range
setters compare against. -/
def np_pi : ℚ := 884279719003555 / 281474976710656

namespace AverageVolumeCylindrical

/-- `AverageVolumeCylindrical.azimuth_range` setter
(`src/festim/exports/derived_quantities/average_volume.py`, lines 79–83):

```python
if value[0] < 0 or value[1] > 2 * np.pi:
    raise ValueError("Azimuthal range must be between 0 and pi")
self._azimuth_range = value
```
-/
def azimuth_range_setter (value : ℚ × ℚ) : Except PyError (ℚ × ℚ) :=
  if value.1 < 0 ∨ value.2 > 2 * np_pi then
    Except.error (PyError.valueError "Azimuthal range must be between 0 and pi")
  else
    Except.ok value

end AverageVolumeCylindrical

namespace AverageVolumeSpherical

/-- `AverageVolumeSpherical.polar_range` setter
(`src/festim/exports/derived_quantities/average_volume.py`, lines 146–150):

```python
if value[0] < -np.pi or value[1] > np.pi:
    raise ValueError("Polar range must be between - pi and pi")
self._polar_range = value
```
-/
def polar_range_setter (value : ℚ × ℚ) : Except PyError (ℚ × ℚ) :=
  if value.1 < -np_pi ∨ value.2 > np_pi then
    Except.error (PyError.valueError "Polar range must be between - pi and pi")
  else
    Except.ok value

/-- `AverageVolumeSpherical.azimuth_range` setter
(`src/festim/exports/derived_quantities/average_volume.py`, lines 156–160):

```python
if value[0] < 0 or value[1] > np.pi:
    raise ValueError("Azimuthal range must be between 0 and pi")
self._azimuth_range = value
```
-/
def azimuth_range_setter (value : ℚ × ℚ) : Except PyError (ℚ × ℚ) :=
  if value.1 < 0 ∨ value.2 > np_pi then
    Except.error (PyError.valueError "Azimuthal range must be between 0 and pi")
  else
    Except.ok value

end AverageVolumeSpherical


/-- `fenics.assemble(g * dx(volume))`, modelled as quadrature over the
cells of the subdomain tagged by the volume id: `Ω` is that set of cells,
`μ c` the measure of cell `c`, and `g c` the integrand evaluated on `c`.
Supplied by the external PDE engine; this layer consumes it opaquely.
The scalar type `K` idealises the engine's floating-point numbers; the
theorems below instantiate it with `ℝ` (and witnesses with `ℚ`). -/
def assemble {ι K : Type} [Field K] (μ : ι → K) (Ω : Finset ι) (g : ι → K) : K :=
  ∑ c ∈ Ω, g c * μ c

/-- The measure of a tagged subdomain: the total measure of its cells. -/
def measureOf {ι K : Type} [Field K] (μ : ι → K) (Ω : Finset ι) : K :=
  ∑ c ∈ Ω, μ c

/-- The mesh handle reachable from a solution function via
`self.function.function_space().mesh()`:  `coordR` is the first component
`rthetaz[0]` (resp. `rthetaphi[0]`) of `f.SpatialCoordinate(mesh)`,
evaluated on cells. -/
structure Mesh (ι K : Type) where
  coordR : ι → K

namespace AverageVolume

/-- `AverageVolume.compute`
(`src/festim/exports/derived_quantities/average_volume.py`, lines 42–45):

```python
return f.assemble(self.function * self.dx(self.volume)) / f.assemble(
    1 * self.dx(self.volume)
)
```

`function` is the solution function of the field; `μ, Ω` stand for the
engine measure `self.dx(self.volume)`. -/
def compute {ι K : Type} [Field K] (μ : ι → K) (Ω : Finset ι)
    (function : ι → K) : K :=
  assemble μ Ω function / assemble μ Ω (fun _ => 1)

end AverageVolume

/-- The state of an `AverageVolumeCylindrical` instance that `compute`
reads and writes: the solution function of the field, the mesh reachable
from it, the `z` expression passed to `__init__`, the stored azimuthal
range, and the lazily-extracted radial coordinate `r` (`None` until the
first `compute`). -/
structure CylindricalState (ι K : Type) where
  function : ι → K
  mesh : Mesh ι K
  z : ι → K
  azimuth_range : ℚ × ℚ
  r : Option (ι → K)

namespace AverageVolumeCylindrical

/-- `AverageVolumeCylindrical.__init__`
(`src/festim/exports/derived_quantities/average_volume.py`, lines 69–73):
sets `self.r = None`, `self.z = z`, and routes `azimuth_range` through its
validating setter, which may raise. -/
def init {ι K : Type} (function : ι → K) (mesh : Mesh ι K) (z : ι → K)
    (azimuth_range : ℚ × ℚ) : Except PyError (CylindricalState ι K) :=
  match azimuth_range_setter azimuth_range with
  | Except.error e => Except.error e
  | Except.ok v =>
      Except.ok { function := function, mesh := mesh, z := z,
                  azimuth_range := v, r := Option.none }

/-- `AverageVolumeCylindrical.compute`
(`src/festim/exports/derived_quantities/average_volume.py`, lines 85–108):

```python
if self.r is None:
    mesh = self.function.function_space().mesh()
    rthetaz = f.SpatialCoordinate(mesh)
    self.r = rthetaz[0]
values = f.assemble(self.function * self.r * self.z * self.dx(self.volume)) * (
    self.azimuth_range[1] - self.azimuth_range[0]
)
volume = f.assemble(1 * self.r * self.z * self.dx(self.volume)) * (
    self.azimuth_range[1] - self.azimuth_range[0]
)
avg_vol = values / volume
avg_vol *= self.azimuth_range[1] - self.azimuth_range[0]
return avg_vol
```

Returns the updated instance state together with the returned value. -/
def compute {ι K : Type} [Field K] (μ : ι → K) (Ω : Finset ι)
    (self : CylindricalState ι K) : CylindricalState ι K × K :=
  let r : ι → K :=
    match self.r with
    | Option.none => self.mesh.coordR
    | Option.some r => r
  let self' : CylindricalState ι K := { self with r := Option.some r }
  let span : K := (self.azimuth_range.2 : K) - (self.azimuth_range.1 : K)
  let values : K :=
    assemble μ Ω (fun c => self.function c * r c * self.z c) * span
  let volume : K :=
    assemble μ Ω (fun c => 1 * r c * self.z c) * span
  let avg_vol : K := values / volume
  let avg_vol : K := avg_vol * span
  (self', avg_vol)

end AverageVolumeCylindrical

/-- The state of an `AverageVolumeSpherical` instance that `compute` reads
and writes. -/
structure SphericalState (ι K : Type) where
  function : ι → K
  mesh : Mesh ι K
  azimuth_range : ℚ × ℚ
  polar_range : ℚ × ℚ
  r : Option (ι → K)

namespace AverageVolumeSpherical

/-- `AverageVolumeSpherical.__init__`
(`src/festim/exports/derived_quantities/average_volume.py`, lines 134–140):
sets `self.r = None` and routes both ranges through their validating
setters. -/
def init {ι K : Type} (function : ι → K) (mesh : Mesh ι K)
    (azimuth_range polar_range : ℚ × ℚ) :
    Except PyError (SphericalState ι K) :=
  match azimuth_range_setter azimuth_range with
  | Except.error e => Except.error e
  | Except.ok a =>
      match polar_range_setter polar_range with
      | Except.error e => Except.error e
      | Except.ok p =>
          Except.ok { function := function, mesh := mesh,
                      azimuth_range := a, polar_range := p, r := Option.none }

/-- `AverageVolumeSpherical.compute`
(`src/festim/exports/derived_quantities/average_volume.py`, lines 162–185):

```python
if self.r is None:
    mesh = self.function.function_space().mesh()
    rthetaphi = f.SpatialCoordinate(mesh)
    self.r = rthetaphi[0]
values = (
    f.assemble(self.function * self.r**2 * self.dx(self.volume))
    * (self.polar_range[1] - self.polar_range[0])
    * (-np.cos(self.azimuth_range[1]) + np.cos(self.azimuth_range[0]))
)
volume = (
    f.assemble(1 * self.r**2 * self.dx(self.volume))
    * (self.polar_range[1] - self.polar_range[0])
    * (-np.cos(self.azimuth_range[1]) + np.cos(self.azimuth_range[0]))
)
avg_vol = values / volume
return avg_vol
```

Cosine is not definable over an abstract field, so the numerics library's
`np.cos` is the parameter `cos`; the theorems below instantiate `K` with
`ℝ` and `cos` with `fun q => Real.cos (q : ℝ)`. -/
def compute {ι K : Type} [Field K] (cos : ℚ → K) (μ : ι → K) (Ω : Finset ι)
    (self : SphericalState ι K) : SphericalState ι K × K :=
  let r : ι → K :=
    match self.r with
    | Option.none => self.mesh.coordR
    | Option.some r => r
  let self' : SphericalState ι K := { self with r := Option.some r }
  let polarSpan : K := (self.polar_range.2 : K) - (self.polar_range.1 : K)
  let cosFactor : K := -cos self.azimuth_range.2 + cos self.azimuth_range.1
  let values : K :=
    assemble μ Ω (fun c => self.function c * r c ^ 2) * polarSpan * cosFactor
  let volume : K :=
    assemble μ Ω (fun c => 1 * r c ^ 2) * polarSpan * cosFactor
  let avg_vol : K := values / volume
  (self', avg_vol)

end AverageVolumeSpherical

namespace TotalVolume

/-- `TotalVolume.compute`
(`src/FESTIM/exports/derived_quantities_export.py`, lines 11–12):

```python
return f.assemble(self.function*self.dx(self.volume))
```
-/
def compute {ι K : Type} [Field K] (μ : ι → K) (Ω : Finset ι)
    (function : ι → K) : K :=
  assemble μ Ω function

end TotalVolume

namespace TotalSurface

/-- `TotalSurface.compute`
(`src/FESTIM/exports/derived_quantities_export.py`, lines 21–22):

```python
return f.assemble(self.function*self.ds(self.surface))
```

`μ, Ω` stand for the surface measure `self.ds(self.surface)`. -/
def compute {ι K : Type} [Field K] (μ : ι → K) (Ω : Finset ι)
    (function : ι → K) : K :=
  assemble μ Ω function

end TotalSurface

/-! ## Theorems -/

/-- An `if cond then raise ValueError else store` body stores exactly when
the condition fails. -/
theorem ite_valueError_ok {α : Type} (p : Prop) [Decidable p] (s : String) (v : α) :
    ((if p then Except.error (PyError.valueError s) else Except.ok v) =
      Except.ok v ↔ ¬ p) := by
  split_ifs with h <;> simp [h]

/-- An `if cond then raise ValueError else store` body raises exactly when
the condition holds. -/
theorem ite_valueError_error {α : Type} (p : Prop) [Decidable p] (s : String) (v : α) :
    ((∃ m, (if p then Except.error (PyError.valueError s) else Except.ok v) =
        Except.error (PyError.valueError m)) ↔ p) := by
  split_ifs with h <;> simp [h]

/-- C4: assigning `SurfaceQuantity.filename` accepts `None` and any string
ending in `".csv"` (storing the value unchanged), raises `TypeError` for
every non-`None` non-string value, and raises `ValueError` for every
string not ending in `".csv"` — all at assignment time, in the setter. -/
theorem filename_setter_validates (v : PyVal) :
    (SurfaceQuantity.filename_setter v = Except.ok v ↔
      v = PyVal.none ∨ ∃ s, v = PyVal.str s ∧ s.endsWith ".csv" = true)
  ∧ ((∃ m, SurfaceQuantity.filename_setter v = Except.error (PyError.typeError m)) ↔
      v ≠ PyVal.none ∧ isinstance_str v = false)
  ∧ ((∃ m, SurfaceQuantity.filename_setter v = Except.error (PyError.valueError m)) ↔
      ∃ s, v = PyVal.str s ∧ s.endsWith ".csv" = false) := by
  cases v <;>
    simp [SurfaceQuantity.filename_setter, isinstance_str, py_endswith] <;>
    rename_i x <;> try cases h : x.endsWith ".csv" <;> simp [h]

/-- Witness for C4 at the spec's examples: `"out.csv"` is accepted and
stored, `"out.txt"` raises `ValueError`, an `int` raises `TypeError`. -/
theorem filename_setter_validates_witness :
    (SurfaceQuantity.filename_setter (PyVal.str "out.csv") =
        Except.ok (PyVal.str "out.csv") ↔
      PyVal.str "out.csv" = PyVal.none ∨
        ∃ s, PyVal.str "out.csv" = PyVal.str s ∧ s.endsWith ".csv" = true)
  ∧ ((∃ m, SurfaceQuantity.filename_setter (PyVal.str "out.txt") =
        Except.error (PyError.valueError m)) ↔
      ∃ s, PyVal.str "out.txt" = PyVal.str s ∧ s.endsWith ".csv" = false)
  ∧ ((∃ m, SurfaceQuantity.filename_setter (PyVal.int 3) =
        Except.error (PyError.typeError m)) ↔
      PyVal.int 3 ≠ PyVal.none ∧ isinstance_str (PyVal.int 3) = false) :=
  ⟨(filename_setter_validates (PyVal.str "out.csv")).1,
   (filename_setter_validates (PyVal.str "out.txt")).2.2,
   (filename_setter_validates (PyVal.int 3)).2.1⟩

/-- C5: assigning `SurfaceQuantity.surface_subdomain` raises `TypeError`
for every boolean (although `isinstance(·, int)` holds of booleans) and
for every value that is neither an `int` nor a `SurfaceSubdomain1D`
handle; every non-boolean `int` and every handle is accepted and stored
unchanged. -/
theorem surface_subdomain_setter_validates (v : PyVal) :
    (SurfaceQuantity.surface_subdomain_setter v = Except.ok v ↔
      (∃ n, v = PyVal.int n) ∨ ∃ i, v = PyVal.surfaceSubdomain1D i)
  ∧ ((∃ m, SurfaceQuantity.surface_subdomain_setter v =
        Except.error (PyError.typeError m)) ↔
      isinstance_bool v = true ∨
        (isinstance_int v = false ∧ isinstance_SurfaceSubdomain1D v = false))
  ∧ isinstance_int (PyVal.bool true) = true
  ∧ isinstance_int (PyVal.bool false) = true := by
  cases v <;>
    simp [SurfaceQuantity.surface_subdomain_setter, isinstance_int,
      isinstance_bool, isinstance_SurfaceSubdomain1D]

/-- Witness for C5 at the spec's example: `surface_subdomain = True`
raises `TypeError` even though `isinstance(True, int)` holds, while the
plain integer `3` is accepted and stored. -/
theorem surface_subdomain_setter_validates_witness :
    ((∃ m, SurfaceQuantity.surface_subdomain_setter (PyVal.bool true) =
        Except.error (PyError.typeError m)) ↔
      isinstance_bool (PyVal.bool true) = true ∨
        (isinstance_int (PyVal.bool true) = false ∧
          isinstance_SurfaceSubdomain1D (PyVal.bool true) = false))
  ∧ isinstance_int (PyVal.bool true) = true
  ∧ (SurfaceQuantity.surface_subdomain_setter (PyVal.int 3) =
        Except.ok (PyVal.int 3) ↔
      (∃ n, PyVal.int 3 = PyVal.int n) ∨
        ∃ i, PyVal.int 3 = PyVal.surfaceSubdomain1D i) :=
  ⟨(surface_subdomain_setter_validates (PyVal.bool true)).2.1,
   (surface_subdomain_setter_validates (PyVal.bool true)).2.2.1,
   (surface_subdomain_setter_validates (PyVal.int 3)).1⟩

/-- C8: `write_to_file` is `False` exactly when `filename` is `None`
(and `True` otherwise), and `write(t)` with `filename = None` raises
`TypeError` from `open`, producing no successful result and touching no
file. -/
theorem no_filename_never_touches_fs (fn : Option String) (value t : ℝ)
    (fs : SurfaceQuantity.FS) :
    (SurfaceQuantity.write_to_file fn = false ↔ fn = Option.none)
  ∧ (SurfaceQuantity.write_to_file fn = true ↔ fn ≠ Option.none)
  ∧ SurfaceQuantity.write Option.none value t fs =
      Except.error
        (PyError.typeError "expected str, bytes or os.PathLike object, not NoneType")
  ∧ ∀ out, SurfaceQuantity.write Option.none value t fs ≠ Except.ok out := by
  refine ⟨?_, ?_, rfl, ?_⟩ <;> cases fn <;>
    simp [SurfaceQuantity.write_to_file, SurfaceQuantity.write]

/-- Witness for C8: concrete evaluation with no filename and with one. -/
theorem no_filename_never_touches_fs_witness :
    (SurfaceQuantity.write_to_file Option.none = false ↔
      (Option.none : Option String) = Option.none)
  ∧ (SurfaceQuantity.write_to_file (Option.some "out.csv") = true ↔
      (Option.some "out.csv" : Option String) ≠ Option.none)
  ∧ SurfaceQuantity.write Option.none 1 2 (fun _ => []) =
      Except.error
        (PyError.typeError "expected str, bytes or os.PathLike object, not NoneType") :=
  ⟨(no_filename_never_touches_fs Option.none 1 2 (fun _ => [])).1,
   (no_filename_never_touches_fs (Option.some "out.csv") 1 2 (fun _ => [])).2.1,
   (no_filename_never_touches_fs Option.none 1 2 (fun _ => [])).2.2.1⟩

/-- C6: for every time `t` and configured filename, `write(t)` succeeds,
appending exactly the one two-column row `(t, value)` at the end of that
file, leaving every previously written row and every other file
unchanged, with an event trace of exactly one open (in append mode), one
row write and one close. -/
theorem write_appends_one_row (name : String) (value t : ℝ)
    (fs : SurfaceQuantity.FS) :
    ∃ fs' trace,
      SurfaceQuantity.write (Option.some name) value t fs = Except.ok (fs', trace)
    ∧ fs' name = fs name ++ [(t, value)]
    ∧ (∀ n, n ≠ name → fs' n = fs n)
    ∧ trace = [SurfaceQuantity.FileEvent.openAppend name,
               SurfaceQuantity.FileEvent.writeRow t value,
               SurfaceQuantity.FileEvent.close name] := by
  refine ⟨_, _, rfl, by simp, fun n hn => by simp [hn], rfl⟩

/-- Witness for C6: one concrete `write` call on an empty file system. -/
theorem write_appends_one_row_witness :
    ∃ fs' trace,
      SurfaceQuantity.write (Option.some "out.csv") 3 2 (fun _ => []) =
        Except.ok (fs', trace)
    ∧ fs' "out.csv" = (fun _ => ([] : List (ℝ × ℝ))) "out.csv" ++ [(2, 3)]
    ∧ (∀ n, n ≠ "out.csv" → fs' n = (fun _ => ([] : List (ℝ × ℝ))) n)
    ∧ trace = [SurfaceQuantity.FileEvent.openAppend "out.csv",
               SurfaceQuantity.FileEvent.writeRow 2 3,
               SurfaceQuantity.FileEvent.close "out.csv"] :=
  write_appends_one_row "out.csv" 3 2 (fun _ => [])

/-- C3: for an angular range `(a, b)` with `a ≤ b`, each setter raises
`ValueError` exactly when the interval `[a, b]` leaves its allowed
bracket — `[0, 2π]` for the cylindrical azimuth, `[0, π]` for the
spherical azimuth, `[−π, π]` for the spherical polar range — and an
accepted value is stored unchanged, at assignment time.  (Pairs with
`a > b` never reach a raise for in-bracket endpoints; that behaviour is
the separate no-ordering-check property.) -/
theorem range_setters_reject_outside_bracket (a b : ℚ) (hab : a ≤ b) :
    (AverageVolumeCylindrical.azimuth_range_setter (a, b) = Except.ok (a, b) ↔
      Set.Icc a b ⊆ Set.Icc 0 (2 * np_pi))
  ∧ ((∃ m, AverageVolumeCylindrical.azimuth_range_setter (a, b) =
        Except.error (PyError.valueError m)) ↔
      ¬ Set.Icc a b ⊆ Set.Icc 0 (2 * np_pi))
  ∧ (AverageVolumeSpherical.azimuth_range_setter (a, b) = Except.ok (a, b) ↔
      Set.Icc a b ⊆ Set.Icc 0 np_pi)
  ∧ ((∃ m, AverageVolumeSpherical.azimuth_range_setter (a, b) =
        Except.error (PyError.valueError m)) ↔
      ¬ Set.Icc a b ⊆ Set.Icc 0 np_pi)
  ∧ (AverageVolumeSpherical.polar_range_setter (a, b) = Except.ok (a, b) ↔
      Set.Icc a b ⊆ Set.Icc (-np_pi) np_pi)
  ∧ ((∃ m, AverageVolumeSpherical.polar_range_setter (a, b) =
        Except.error (PyError.valueError m)) ↔
      ¬ Set.Icc a b ⊆ Set.Icc (-np_pi) np_pi) := by
  unfold AverageVolumeCylindrical.azimuth_range_setter
    AverageVolumeSpherical.azimuth_range_setter
    AverageVolumeSpherical.polar_range_setter
  refine ⟨?_, ?_, ?_, ?_, ?_, ?_⟩ <;>
    rw [Set.Icc_subset_Icc_iff hab] <;>
      simp only [ite_valueError_ok, ite_valueError_error, not_or, not_lt,
        not_and_or, not_le, gt_iff_lt] <;>
        tauto

/-- Witness for C3 at the spec's examples: cylindrical
`azimuth_range = (0, 2π)` succeeds and stores the value, while
`azimuth_range = (−0.1, π)` raises `ValueError`. -/
theorem range_setters_reject_outside_bracket_witness :
    ((0 : ℚ) ≤ 2 * np_pi ∧
      AverageVolumeCylindrical.azimuth_range_setter (0, 2 * np_pi) =
        Except.ok (0, 2 * np_pi)) ∧
    ((-1/10 : ℚ) ≤ np_pi ∧
      ∃ m, AverageVolumeCylindrical.azimuth_range_setter (-1/10, np_pi) =
        Except.error (PyError.valueError m)) := by
  have h1 : (0 : ℚ) ≤ 2 * np_pi := by norm_num [np_pi]
  have h2 : (-1/10 : ℚ) ≤ np_pi := by norm_num [np_pi]
  refine ⟨⟨h1, ?_⟩, h2, ?_⟩
  · exact ((range_setters_reject_outside_bracket 0 (2 * np_pi) h1).1).mpr
      Set.Subset.rfl
  · refine ((range_setters_reject_outside_bracket (-1/10) np_pi h2).2.1).mpr ?_
    intro hsub
    have hmem : (-1/10 : ℚ) ∈ Set.Icc (-1/10 : ℚ) np_pi := ⟨le_refl _, h2⟩
    have hcc := hsub hmem
    rw [Set.mem_Icc] at hcc
    norm_num at hcc

/-- C10: the angular-range setters never compare the two endpoints with
each other: whenever the first endpoint respects the bracket's lower
bound and the second its upper bound, assignment succeeds and stores the
pair unchanged, even when `a > b`; a cylindrical instance whose stored
range is such a reversed pair then feeds the negative span `b − a` into
`compute`, which returns a negative value on a unit constant field. -/
theorem range_setters_ignore_ordering (a b : ℚ) :
    (0 ≤ a → b ≤ 2 * np_pi →
      AverageVolumeCylindrical.azimuth_range_setter (a, b) = Except.ok (a, b))
  ∧ (0 ≤ a → b ≤ np_pi →
      AverageVolumeSpherical.azimuth_range_setter (a, b) = Except.ok (a, b))
  ∧ (-np_pi ≤ a → b ≤ np_pi →
      AverageVolumeSpherical.polar_range_setter (a, b) = Except.ok (a, b))
  ∧ (b < a →
      ∀ st : CylindricalState (Fin 1) ℚ,
        st.azimuth_range = (a, b) → st.function = (fun _ => 1) →
        st.z = (fun _ => 1) → st.r = Option.some (fun _ => 1) →
        (AverageVolumeCylindrical.compute (fun _ => 1) Finset.univ st).2 = b - a
        ∧ (AverageVolumeCylindrical.compute (fun _ => 1) Finset.univ st).2 < 0) := by
  refine ⟨fun h1 h2 => ?_, fun h1 h2 => ?_, fun h1 h2 => ?_, fun hba st har hf hz hr => ?_⟩
  · unfold AverageVolumeCylindrical.azimuth_range_setter
    rw [ite_valueError_ok]
    simp only [not_or, not_lt, gt_iff_lt]
    exact ⟨h1, h2⟩
  · unfold AverageVolumeSpherical.azimuth_range_setter
    rw [ite_valueError_ok]
    simp only [not_or, not_lt, gt_iff_lt]
    exact ⟨h1, h2⟩
  · unfold AverageVolumeSpherical.polar_range_setter
    rw [ite_valueError_ok]
    simp only [not_or, not_lt, gt_iff_lt]
    exact ⟨h1, h2⟩
  · have hspan : b - a ≠ 0 := by
      intro h
      exact absurd (by linarith : a = b) (by intro h'; rw [h'] at hba; exact lt_irrefl b hba)
    have hcomp :
        (AverageVolumeCylindrical.compute (fun _ => 1) Finset.univ st).2 = b - a := by
      simp only [AverageVolumeCylindrical.compute, assemble, hr, har, hf, hz]
      simp only [Finset.sum_const, Finset.card_univ, Fintype.card_fin, one_smul,
        one_mul, mul_one, Rat.cast_id]
      rw [div_self (by simpa using hspan)]
      ring
    exact ⟨hcomp, by rw [hcomp]; linarith⟩

/-- Witness for C10 at the claim's example: cylindrical
`azimuth_range = (2π, 0)` is accepted and stored, and `compute` on a unit
constant field then returns the negative span `0 − 2π`. -/
theorem range_setters_ignore_ordering_witness :
    AverageVolumeCylindrical.azimuth_range_setter (2 * np_pi, 0) =
      Except.ok (2 * np_pi, 0)
  ∧ (AverageVolumeCylindrical.compute (fun _ => 1) Finset.univ
      (⟨fun _ => 1, ⟨fun _ => 1⟩, fun _ => 1, (2 * np_pi, 0),
        Option.some (fun _ => 1)⟩ : CylindricalState (Fin 1) ℚ)).2 = 0 - 2 * np_pi
  ∧ (AverageVolumeCylindrical.compute (fun _ => 1) Finset.univ
      (⟨fun _ => 1, ⟨fun _ => 1⟩, fun _ => 1, (2 * np_pi, 0),
        Option.some (fun _ => 1)⟩ : CylindricalState (Fin 1) ℚ)).2 < 0 := by
  have h0 : (0 : ℚ) ≤ 2 * np_pi := by norm_num [np_pi]
  have hba : (0 : ℚ) < 2 * np_pi := by norm_num [np_pi]
  obtain ⟨hc, -, -, hcomp⟩ := range_setters_ignore_ordering (2 * np_pi) 0
  have h := hcomp hba
    (⟨fun _ => 1, ⟨fun _ => 1⟩, fun _ => 1, (2 * np_pi, 0),
      Option.some (fun _ => 1)⟩ : CylindricalState (Fin 1) ℚ) rfl rfl rfl rfl
  exact ⟨hc h0 h0, h.1, h.2⟩

/-- Assembling a constant multiple of an integrand scales the assembled
value: the linearity of the engine's quadrature in the model. -/
theorem assemble_const_mul {ι K : Type} [Field K] (μ : ι → K) (Ω : Finset ι)
    (c : K) (g : ι → K) :
    assemble μ Ω (fun x => c * g x) = c * assemble μ Ω g := by
  simp [assemble, Finset.mul_sum, mul_assoc]

/-- The ratio of two assembled spherical integrals with the same angular
factors collapses to the constant when the denominator is nonzero. -/
theorem spherical_ratio_const {ι : Type} (μ : ι → ℝ) (Ω : Finset ι)
    (c P C : ℝ) (rr : ι → ℝ)
    (hvol : assemble μ Ω (fun x => 1 * rr x ^ 2) * P * C ≠ 0) :
    assemble μ Ω (fun x => c * rr x ^ 2) * P * C /
      (assemble μ Ω (fun x => 1 * rr x ^ 2) * P * C) = c := by
  have hval : assemble μ Ω (fun x => c * rr x ^ 2) =
      c * assemble μ Ω (fun x => 1 * rr x ^ 2) := by
    simp [assemble, Finset.mul_sum, mul_assoc]
  rw [hval, mul_assoc c _ P, mul_assoc c _ C]
  exact mul_div_cancel_right₀ c hvol

/-- C2: `AverageVolume.compute` returns the assembled integral of the
field over the subdomain's measure divided by the assembled integral of
`1` over the same measure; consequently a constant field `c` over any
subdomain of nonzero measure averages to `c` exactly, in the base
(Cartesian) variant and in the spherical variant alike. -/
theorem average_volume_constant_field {ι : Type} (μ : ι → ℝ) (Ω : Finset ι)
    (c : ℝ) :
    (∀ f : ι → ℝ, AverageVolume.compute μ Ω f =
        assemble μ Ω f / assemble μ Ω (fun _ => 1))
  ∧ (assemble μ Ω (fun _ => 1) ≠ 0 →
      AverageVolume.compute μ Ω (fun _ => c) = c)
  ∧ (∀ st : SphericalState ι ℝ,
      st.function = (fun _ => c) →
      assemble μ Ω (fun x =>
          1 * (match st.r with
            | Option.none => st.mesh.coordR
            | Option.some r => r) x ^ 2)
        * ((st.polar_range.2 : ℝ) - (st.polar_range.1 : ℝ))
        * (-Real.cos (st.azimuth_range.2 : ℝ) + Real.cos (st.azimuth_range.1 : ℝ))
        ≠ 0 →
      (AverageVolumeSpherical.compute (fun q => Real.cos (q : ℝ)) μ Ω st).2 = c) := by
  refine ⟨fun f => rfl, fun h => ?_, fun st hf hvol => ?_⟩
  · unfold AverageVolume.compute
    have hc : assemble μ Ω (fun _ => c) = c * assemble μ Ω (fun _ => 1) := by
      simpa using assemble_const_mul μ Ω c (fun _ => 1)
    rw [hc, mul_div_assoc, div_self h, mul_one]
  · obtain ⟨f0, m0, ar0, pr0, r0⟩ := st
    simp only at hf
    subst hf
    cases r0 <;>
      simp only [AverageVolumeSpherical.compute] at hvol ⊢ <;>
      exact spherical_ratio_const μ Ω c _ _ _ hvol

/-- Witness for C2: on a one-cell subdomain of unit measure, the constant
field `2` averages to `2` in the base variant, and in the spherical
variant with azimuth range `(0, 3)` and polar range `(0, 1)`. -/
theorem average_volume_constant_field_witness :
    (assemble (fun _ => (1 : ℝ)) (Finset.univ : Finset (Fin 1)) (fun _ => 1) ≠ 0)
  ∧ AverageVolume.compute (fun _ => (1 : ℝ)) (Finset.univ : Finset (Fin 1))
      (fun _ => 2) = 2
  ∧ (assemble (fun _ => (1 : ℝ)) (Finset.univ : Finset (Fin 1))
        (fun x => 1 * (fun _ : Fin 1 => (1 : ℝ)) x ^ 2)
      * (((1 : ℚ) : ℝ) - ((0 : ℚ) : ℝ))
      * (-Real.cos ((3 : ℚ) : ℝ) + Real.cos ((0 : ℚ) : ℝ)) ≠ 0)
  ∧ (AverageVolumeSpherical.compute (fun q => Real.cos (q : ℝ))
      (fun _ => (1 : ℝ)) (Finset.univ : Finset (Fin 1))
      (⟨fun _ => 2, ⟨fun _ => 1⟩, (0, 3), (0, 1), Option.none⟩ :
        SphericalState (Fin 1) ℝ)).2 = 2 := by
  have h1 : assemble (fun _ => (1 : ℝ)) (Finset.univ : Finset (Fin 1))
      (fun _ => 1) ≠ 0 := by
    simp [assemble]
  have hcos : Real.cos ((3 : ℚ) : ℝ) ≤ 0 := by
    push_cast
    apply Real.cos_nonpos_of_pi_div_two_le_of_le
    · nlinarith [Real.pi_lt_315]
    · nlinarith [Real.pi_gt_314]
  have hvol : assemble (fun _ => (1 : ℝ)) (Finset.univ : Finset (Fin 1))
        (fun x => 1 * (fun _ : Fin 1 => (1 : ℝ)) x ^ 2)
      * (((1 : ℚ) : ℝ) - ((0 : ℚ) : ℝ))
      * (-Real.cos ((3 : ℚ) : ℝ) + Real.cos ((0 : ℚ) : ℝ)) ≠ 0 := by
    have ha : assemble (fun _ => (1 : ℝ)) (Finset.univ : Finset (Fin 1))
        (fun x => 1 * (fun _ : Fin 1 => (1 : ℝ)) x ^ 2) = 1 := by
      simp [assemble]
    rw [ha]
    push_cast at hcos ⊢
    rw [Real.cos_zero]
    nlinarith [hcos]
  exact ⟨h1, (average_volume_constant_field _ _ 2).2.1 h1, hvol,
    (average_volume_constant_field _ _ 2).2.2
      (⟨fun _ => 2, ⟨fun _ => 1⟩, (0, 3), (0, 1), Option.none⟩ :
        SphericalState (Fin 1) ℝ) rfl hvol⟩

/-- C7: `TotalVolume.compute` returns the unweighted assembled integral
of the field over the volume subdomain; on the field identically `1` it
returns the measure of the subdomain. -/
theorem total_volume_unweighted {ι : Type} (μ : ι → ℝ) (Ω : Finset ι)
    (f : ι → ℝ) :
    TotalVolume.compute μ Ω f = assemble μ Ω f
  ∧ TotalVolume.compute μ Ω (fun _ => 1) = measureOf μ Ω :=
  ⟨rfl, by simp [TotalVolume.compute, assemble, measureOf]⟩

/-- C1 (failing input): a validly configured `AverageVolumeCylindrical`
with azimuth range `(0, π)` — accepted by its setter — computing a
constant field `1` on a one-cell subdomain of unit measure (with
`r = z = 1`) returns `π`, not the field value `1`: the final
`avg_vol *= azimuth_range[1] - azimuth_range[0]` line scales the already
azimuth-independent average by the span once more, contradicting the
class's own `int(f dx) / int(1 dx)` docstring. -/
theorem cylindrical_compute_scales_average_by_span :
    AverageVolumeCylindrical.azimuth_range_setter (0, np_pi) =
      Except.ok (0, np_pi)
  ∧ (AverageVolumeCylindrical.compute (fun _ => (1 : ℚ))
      (Finset.univ : Finset (Fin 1))
      (⟨fun _ => 1, ⟨fun _ => 1⟩, fun _ => 1, (0, np_pi), Option.none⟩ :
        CylindricalState (Fin 1) ℚ)).2 = np_pi
  ∧ np_pi ≠ 1 := by
  refine ⟨?_, ?_, by norm_num [np_pi]⟩
  · unfold AverageVolumeCylindrical.azimuth_range_setter
    rw [ite_valueError_ok]
    simp only [not_or, not_lt, gt_iff_lt]
    constructor <;> norm_num [np_pi]
  · simp only [AverageVolumeCylindrical.compute, assemble]
    simp only [Finset.sum_const, Finset.card_univ, Fintype.card_fin, one_smul,
      one_mul, mul_one, Rat.cast_id]
    rw [div_self (by norm_num [np_pi])]
    norm_num

/-- C9: for both the cylindrical and the spherical variant, `r` is `None`
after construction; the first `compute()` call stores the mesh's radial
spatial coordinate in `r` and modifies no other attribute; every
subsequent `compute()` call leaves the instance state entirely
unchanged. -/
theorem r_extracted_lazily {ι K : Type} [Field K] (cos : ℚ → K) (μ : ι → K)
    (Ω : Finset ι) :
    (∀ (function : ι → K) (mesh : Mesh ι K) (z : ι → K) (ar : ℚ × ℚ)
        (st : CylindricalState ι K),
      AverageVolumeCylindrical.init function mesh z ar = Except.ok st →
        st.r = Option.none)
  ∧ (∀ st : CylindricalState ι K, st.r = Option.none →
      (AverageVolumeCylindrical.compute μ Ω st).1 =
        { st with r := Option.some st.mesh.coordR })
  ∧ (∀ (st : CylindricalState ι K) (r0 : ι → K), st.r = Option.some r0 →
      (AverageVolumeCylindrical.compute μ Ω st).1 = st)
  ∧ (∀ (function : ι → K) (mesh : Mesh ι K) (ar pr : ℚ × ℚ)
        (st : SphericalState ι K),
      AverageVolumeSpherical.init function mesh ar pr = Except.ok st →
        st.r = Option.none)
  ∧ (∀ st : SphericalState ι K, st.r = Option.none →
      (AverageVolumeSpherical.compute cos μ Ω st).1 =
        { st with r := Option.some st.mesh.coordR })
  ∧ (∀ (st : SphericalState ι K) (r0 : ι → K), st.r = Option.some r0 →
      (AverageVolumeSpherical.compute cos μ Ω st).1 = st) := by
  refine ⟨?_, ?_, ?_, ?_, ?_, ?_⟩
  · intro fn mesh z ar st h
    unfold AverageVolumeCylindrical.init at h
    cases hs : AverageVolumeCylindrical.azimuth_range_setter ar with
    | error e => rw [hs] at h; exact absurd h (by simp)
    | ok v =>
        rw [hs] at h
        simp only [Except.ok.injEq] at h
        rw [← h]
  · intro st h
    simp only [AverageVolumeCylindrical.compute, h]
  · intro st r0 h
    obtain ⟨f0, m0, z0, a0, rr⟩ := st
    simp only at h
    subst h
    simp only [AverageVolumeCylindrical.compute]
  · intro fn mesh ar pr st h
    unfold AverageVolumeSpherical.init at h
    cases hs : AverageVolumeSpherical.azimuth_range_setter ar with
    | error e => rw [hs] at h; exact absurd h (by simp)
    | ok a =>
        rw [hs] at h
        cases hp : AverageVolumeSpherical.polar_range_setter pr with
        | error e => rw [hp] at h; exact absurd h (by simp)
        | ok p =>
            rw [hp] at h
            simp only [Except.ok.injEq] at h
            rw [← h]
  · intro st h
    simp only [AverageVolumeSpherical.compute, h]
  · intro st r0 h
    obtain ⟨f0, m0, a0, p0, rr⟩ := st
    simp only at h
    subst h
    simp only [AverageVolumeSpherical.compute]

/-- Witness for C9: a concrete one-cell cylindrical and spherical
instance; construction leaves `r = None`, the first `compute` stores the
mesh coordinate in `r` and nothing else, a `compute` on a state with `r`
already set returns the state unchanged. -/
theorem r_extracted_lazily_witness :
    AverageVolumeCylindrical.init (fun _ => (1 : ℚ)) ⟨fun _ => 1⟩ (fun _ => 1)
      (0, 1) =
      Except.ok (⟨fun _ => 1, ⟨fun _ => 1⟩, fun _ => 1, (0, 1), Option.none⟩ :
        CylindricalState (Fin 1) ℚ)
  ∧ (⟨fun _ => 1, ⟨fun _ => 1⟩, fun _ => 1, (0, 1), Option.none⟩ :
      CylindricalState (Fin 1) ℚ).r = Option.none
  ∧ (AverageVolumeCylindrical.compute (fun _ => (1 : ℚ)) Finset.univ
      (⟨fun _ => 1, ⟨fun _ => 1⟩, fun _ => 1, (0, 1), Option.none⟩ :
        CylindricalState (Fin 1) ℚ)).1 =
      { (⟨fun _ => 1, ⟨fun _ => 1⟩, fun _ => 1, (0, 1), Option.none⟩ :
          CylindricalState (Fin 1) ℚ) with
        r := Option.some (⟨fun _ => 1, ⟨fun _ => 1⟩, fun _ => 1, (0, 1),
          Option.none⟩ : CylindricalState (Fin 1) ℚ).mesh.coordR }
  ∧ (AverageVolumeCylindrical.compute (fun _ => (1 : ℚ)) Finset.univ
      (⟨fun _ => 1, ⟨fun _ => 1⟩, fun _ => 1, (0, 1),
        Option.some (fun _ => 1)⟩ : CylindricalState (Fin 1) ℚ)).1 =
      (⟨fun _ => 1, ⟨fun _ => 1⟩, fun _ => 1, (0, 1),
        Option.some (fun _ => 1)⟩ : CylindricalState (Fin 1) ℚ)
  ∧ AverageVolumeSpherical.init (fun _ => (1 : ℚ)) ⟨fun _ => 1⟩ (0, 1) (0, 1) =
      Except.ok (⟨fun _ => 1, ⟨fun _ => 1⟩, (0, 1), (0, 1), Option.none⟩ :
        SphericalState (Fin 1) ℚ)
  ∧ (⟨fun _ => 1, ⟨fun _ => 1⟩, (0, 1), (0, 1), Option.none⟩ :
      SphericalState (Fin 1) ℚ).r = Option.none
  ∧ (AverageVolumeSpherical.compute (fun _ => (0 : ℚ)) (fun _ => (1 : ℚ))
      Finset.univ
      (⟨fun _ => 1, ⟨fun _ => 1⟩, (0, 1), (0, 1), Option.none⟩ :
        SphericalState (Fin 1) ℚ)).1 =
      { (⟨fun _ => 1, ⟨fun _ => 1⟩, (0, 1), (0, 1), Option.none⟩ :
          SphericalState (Fin 1) ℚ) with
        r := Option.some (⟨fun _ => 1, ⟨fun _ => 1⟩, (0, 1), (0, 1),
          Option.none⟩ : SphericalState (Fin 1) ℚ).mesh.coordR }
  ∧ (AverageVolumeSpherical.compute (fun _ => (0 : ℚ)) (fun _ => (1 : ℚ))
      Finset.univ
      (⟨fun _ => 1, ⟨fun _ => 1⟩, (0, 1), (0, 1),
        Option.some (fun _ => 1)⟩ : SphericalState (Fin 1) ℚ)).1 =
      (⟨fun _ => 1, ⟨fun _ => 1⟩, (0, 1), (0, 1),
        Option.some (fun _ => 1)⟩ : SphericalState (Fin 1) ℚ) := by
  have hinitC : AverageVolumeCylindrical.init (fun _ => (1 : ℚ)) ⟨fun _ => 1⟩
      (fun _ => 1) (0, 1) =
      Except.ok (⟨fun _ => 1, ⟨fun _ => 1⟩, fun _ => 1, (0, 1), Option.none⟩ :
        CylindricalState (Fin 1) ℚ) := by
    unfold AverageVolumeCylindrical.init AverageVolumeCylindrical.azimuth_range_setter
    rw [if_neg (by norm_num [np_pi])]
  have hinitS : AverageVolumeSpherical.init (fun _ => (1 : ℚ)) ⟨fun _ => 1⟩
      (0, 1) (0, 1) =
      Except.ok (⟨fun _ => 1, ⟨fun _ => 1⟩, (0, 1), (0, 1), Option.none⟩ :
        SphericalState (Fin 1) ℚ) := by
    unfold AverageVolumeSpherical.init AverageVolumeSpherical.azimuth_range_setter
      AverageVolumeSpherical.polar_range_setter
    rw [if_neg (by norm_num [np_pi]), if_neg (by norm_num [np_pi])]
  obtain ⟨h1, h2, h3, h4, h5, h6⟩ :=
    r_extracted_lazily (fun _ => (0 : ℚ)) (fun _ => (1 : ℚ))
      (Finset.univ : Finset (Fin 1))
  exact ⟨hinitC, h1 _ _ _ _ _ hinitC, h2 _ rfl, h3 _ _ rfl,
    hinitS, h4 _ _ _ _ _ hinitS, h5 _ rfl, h6 _ _ rfl⟩
